import Mathlib

/-!
Shallow embedding of buildbot's Mercurial source step
(master/buildbot/steps/source/mercurial.py) and of the option-patching
constructor of SubcommandOptions (master/buildbot/scripts/base.py),
together with theorems settling the specification's claims about them.

The step methods are deferred-callback chains whose only effects are the
remote commands they issue and the values they thread between callbacks.
They are embedded as pure functions from the step's state and from the
responses the worker gives to the probes (working-copy presence, observed
branch, purge exit status, log lines) to the ordered list of remote
commands issued, or to the values the callbacks produce.
-/

namespace Buildbot

/-- Python truthiness of an optional string (the test `if s:`): `None` and
the empty string are falsy, every other string is truthy. -/
def pyTruthy : Option String → Bool
  | none => false
  | some s => !s.isEmpty

/-- Python `s or d` for an optional string `s`: `d` when `s` is falsy
(absent or empty), otherwise the string itself. -/
def pyOr (s : Option String) (d : String) : String :=
  match s with
  | none => d
  | some t => if t.isEmpty then d else t

/-- The constant `FAILURE` from buildbot.status.results. -/
def FAILURE : Int := 2

/-- Python's `str.strip()`: drop whitespace from both ends of the
string. -/
def strip (s : String) : String :=
  String.mk (((s.data.dropWhile Char.isWhitespace).reverse.dropWhile
    Char.isWhitespace).reverse)

/-- One command issued to the remote worker: the non-shell `rmdir` and
`stat` commands (LoggedRemoteCommand), or an `hg` invocation carrying the
argument list handed to `_dovccmd` (which prepends `hg --verbose`). -/
inductive RemoteCmd where
  | rmdir (dir : String)
  | stat (file : String)
  | hg (args : List String)
deriving DecidableEq

/-- The fields of the Mercurial step that the checkout logic reads once
`startVC` has run (mercurial.py lines 64-99): the resolved `repourl`, the
per-build `branch` (line 88), the comparison branch `update_branch`
(line 89), the requested `revision` (line 98), the
`clobberOnBranchChange` flag and the working directory. -/
structure StepState where
  repourl : String
  branch : Option String
  update_branch : String
  revision : Option String
  clobberOnBranchChange : Bool
  workdir : String
deriving DecidableEq

/-- `doClobber` (mercurial.py lines 134-139): remove the working
directory, then `hg clone <repourl> .`. -/
def doClobber (s : StepState) : List RemoteCmd :=
  [.rmdir s.workdir, .hg ["clone", s.repourl, "."]]

/-- The argv built by `_update` (mercurial.py lines 202-209):
`update --clean`, then `--rev <revision>` when a revision was requested,
else `--rev <self.branch or 'default'>`. -/
def updateCommand (s : StepState) : List String :=
  ["update", "--clean"] ++
    (if pyTruthy s.revision then ["--rev", s.revision.getD ""]
     else ["--rev", pyOr s.branch "default"])

/-- The single command `_update` issues. -/
def update (s : StepState) : List RemoteCmd :=
  [.hg (updateCommand s)]

/-- `_compare` inside `_checkBranchChange` (mercurial.py lines 213-219):
`true` (clobber) when the branch observed by `_getCurrentBranch` differs
from `update_branch` and `clobberOnBranchChange` is set, else `false`
(update). -/
def hgCompare (s : StepState) (current_branch : String) : Bool :=
  if current_branch ≠ s.update_branch then
    if s.clobberOnBranchChange then true else false
  else false

/-- `update_branch` as assigned by `startVC` line 89:
`branch or 'default'`. -/
def updateBranch (branch : Option String) : String :=
  pyOr branch "default"

/-- `incremental` (mercurial.py lines 153-179): probe the source
directory (`_sourcedirIsUpdatable`, a `stat` of `workdir/.hg`), issue
`pull` when it is updatable and `clone` otherwise, then unconditionally
run `_checkBranchChange` — an `identify --branch` probe whose extracted
result `observed` feeds `_compare` — and finally either `doClobber` or
`_update` according to that comparison. `observed` is the branch name
read from the probe issued after the pull/clone command completed. -/
def incremental (s : StepState) (updatable : Bool) (observed : String) :
    List RemoteCmd :=
  .stat (s.workdir ++ "/.hg") ::
  .hg (if updatable then ["pull", s.repourl] else ["clone", s.repourl, "."]) ::
  .hg ["identify", "--branch"] ::
  (if hgCompare s observed then doClobber s else update s)

/-- The purge argv built by `clean` (mercurial.py line 224) and `fresh`
(line 230): `--config extensions.purge= purge`, with `--all` appended in
`fresh`. -/
def purgeCommand (all : Bool) : List String :=
  ["--config", "extensions.purge=", "purge"] ++ (if all then ["--all"] else [])

/-- `_checkPurge` (mercurial.py lines 235-245): a non-zero purge result
falls back to `doClobber`; on zero it pulls from `repourl` and then runs
`_update`. -/
def checkPurge (s : StepState) (res : Int) : List RemoteCmd :=
  if res ≠ 0 then doClobber s
  else .hg ["pull", s.repourl] :: update s

/-- `clean` (mercurial.py lines 223-227): the non-all purge, then
`_checkPurge` on its result. -/
def clean (s : StepState) (res : Int) : List RemoteCmd :=
  .hg (purgeCommand false) :: checkPurge s res

/-- `fresh` (mercurial.py lines 229-233): the `--all` purge, then
`_checkPurge` on its result. -/
def fresh (s : StepState) (res : Int) : List RemoteCmd :=
  .hg (purgeCommand true) :: checkPurge s res

/-- `readlines()[-1].strip()` as executed by `parseGotRevision`
(mercurial.py line 144) and `_getCurrentBranch` (line 195): the stripped
last line of the captured stdio log; `none` models the IndexError raised
on an empty log. -/
def lastLineStripped (lines : List String) : Option String :=
  lines.getLast?.map strip

/-- `_getCurrentBranch` (mercurial.py lines 192-200): the branch it
reports is the stripped last line of the stdio log. -/
def getCurrentBranch (lines : List String) : Option String :=
  lastLineStripped lines

/-- The `_setrev` callback of `parseGotRevision` (mercurial.py lines
143-149) applied to the log `lines` and the incoming callback value
`res`: it reads the stripped last log line; when its length is not 40
it returns `FAILURE` without setting any property, otherwise it sets
`got_revision` to that line and passes `res` through. The output pairs
the value handed to the next callback with the property published
(`none` when nothing was written); the outer `none` models the
IndexError on an empty log. -/
def parseGotRevision (lines : List String) (res : Int) :
    Option (Int × Option String) :=
  match lastLineStripped lines with
  | none => none
  | some revision =>
    if revision.length ≠ 40 then some (FAILURE, none)
    else some (res, some revision)

/-- Spec-side predicate, for comparison with `parseGotRevision`: a
hexadecimal character. -/
def isHexChar (c : Char) : Bool :=
  c.isDigit || (decide ('a' ≤ c) && decide (c ≤ 'f')) ||
    (decide ('A' ≤ c) && decide (c ≤ 'F'))

/-- Spec-side predicate ("exactly 40 hexadecimal characters"), for
comparison with `parseGotRevision`. -/
def isHex40 (s : String) : Bool :=
  s.length == 40 && s.toList.all isHexChar

/-- Spec-side extraction ("the last non-empty line of a command's
captured output is its semantic result"), stripped, for comparison with
`lastLineStripped`. -/
def lastNonEmptyLine (lines : List String) : Option String :=
  ((lines.filter fun l => !(strip l).isEmpty).getLast?).map strip

/-- The exclusivity check of `Mercurial.__init__` (mercurial.py lines
78-80): raises ValueError when both `repourl` and `baseurl` are truthy;
every other combination, including both absent, falls through. -/
def initCheck (repourl baseurl : Option String) : Except String Unit :=
  if pyTruthy repourl && pyTruthy baseurl then
    .error "you must provide exactly one of repourl and baseurl"
  else .ok ()

/-- The configuration fields `startVC` consults (set by the constructor,
mercurial.py lines 64-67). -/
structure HgConfig where
  repourl : Option String
  baseurl : Option String
  branchType : String
deriving DecidableEq

/-- The branch-validation and URL-resolution part of `startVC`
(mercurial.py lines 88-97). `crl` stands for the inherited
`computeRepositoryURL` (defined outside the excerpt). A failed `assert`
is an `error`; on success the resolved `repourl` is returned: for a
truthy branch it is `computeRepositoryURL(baseurl) + (branch or '')`,
otherwise `computeRepositoryURL(repourl)`. -/
def startVCRepourl (crl : Option String → String) (cfg : HgConfig)
    (branch : Option String) : Except String String :=
  if pyTruthy branch then
    if cfg.branchType = "dirname" ∧ pyTruthy cfg.repourl = false then
      .ok (crl cfg.baseurl ++ pyOr branch "")
    else .error "AssertionError"
  else
    if cfg.branchType = "inrepo" ∧ pyTruthy cfg.baseurl = false then
      .ok (crl cfg.repourl)
    else .error "AssertionError"

/-- Whether a remote command belongs to the spec's OperationPlan (clone,
pull, update, purge, remove): the presence probe and the identify
probes are reads, not plan operations. -/
def isPlanOp : RemoteCmd → Bool
  | .rmdir _ => true
  | .stat _ => false
  | .hg args => !(args.head? == some "identify")

/-- The OperationPlan part of a command trace. -/
def planOps (t : List RemoteCmd) : List RemoteCmd :=
  t.filter isPlanOp

/-- A sample step state: inrepo addressing, no per-build branch, no
explicit revision, clobber-on-branch-change enabled. -/
def s0 : StepState :=
  { repourl := "http://hg.example/repo"
    branch := none
    update_branch := "default"
    revision := none
    clobberOnBranchChange := true
    workdir := "build" }

/-- A 40-character string that is not hexadecimal. -/
def zrev : String := "zzzzzzzzzzzzzzzzzzzzzzzzzzzzzzzzzzzzzzzz"

/-- A 40-character hexadecimal string. -/
def arev : String := "aaaaaaaaaaaaaaaaaaaaaaaaaaaaaaaaaaaaaaaa"

/-- One entry of the class attribute `optParameters`:
`[name, short, default, doc]`; the patch loop of
`SubcommandOptions.__init__` reads index 0 and writes index 2
(base.py lines 55-58). -/
structure OptParam where
  name : String
  short : String
  default : String
  doc : String
deriving DecidableEq

/-- Python `optfile_name in optfile` / `optfile[optfile_name]` on the
options dictionary, modelled as an association list. -/
def optLookup (optfile : List (String × String)) (k : String) : Option String :=
  (optfile.find? fun p => p.1 == k).map Prod.snd

/-- The patch loop of `SubcommandOptions.__init__` (base.py lines 51-58):
for each `[optfile_name, option_name]` pair of `buildbotOptions`, every
entry of the deep-copied `optParameters` whose name matches
`option_name` has its default replaced by the options-file value, when
the options file defines `optfile_name`. The deep copy (line 50) is what
makes this a fresh value: the original list object is never mutated. -/
def patchParams (op : List OptParam) (pairs : List (String × String))
    (optfile : List (String × String)) : List OptParam :=
  pairs.foldl
    (fun acc pr =>
      match optLookup optfile pr.1 with
      | some v => acc.map fun e => if e.name == pr.2 then { e with default := v } else e
      | none => acc)
    op

/-- The two values the class attribute `optParameters` takes during
`SubcommandOptions.__init__` (base.py lines 40-61): the patched deep
copy installed just before `usage.Options.__init__` runs (which reads
the class attribute via accumulateClassList and does not assign it), and
the saved original assigned back afterwards. `none` models a class
without an `optParameters` attribute, in which case both `hasattr`
guards skip their branches. -/
structure InitRun where
  duringSuper : Option (List OptParam)
  after : Option (List OptParam)
deriving DecidableEq

/-- `SubcommandOptions.__init__` (base.py lines 40-61) as a function of
the class-level `buildbotOptions` (`none` for the falsy default), the
loaded options file, and the initial value of the class attribute
`optParameters` (`none` when the attribute is absent). A falsy
`buildbotOptions` skips the patch loop, so the installed copy equals the
original value. -/
def subcommandOptionsInit (buildbotOptions : Option (List (String × String)))
    (optfile : List (String × String)) (cls : Option (List OptParam)) : InitRun :=
  match cls with
  | none => { duringSuper := none, after := none }
  | some old =>
    let op :=
      match buildbotOptions with
      | none => old
      | some pairs => patchParams old pairs optfile
    { duringSuper := some op, after := some old }

end Buildbot

namespace Buildbot

/-- A stat probe is not an OperationPlan member. -/
theorem isPlanOp_stat (f : String) : isPlanOp (.stat f) = false := rfl

/-- The remove command is an OperationPlan member. -/
theorem isPlanOp_rmdir (d : String) : isPlanOp (.rmdir d) = true := rfl

/-- A pull command is an OperationPlan member. -/
theorem isPlanOp_pull (rest : List String) : isPlanOp (.hg ("pull" :: rest)) = true := rfl

/-- A clone command is an OperationPlan member. -/
theorem isPlanOp_clone (rest : List String) : isPlanOp (.hg ("clone" :: rest)) = true := rfl

/-- An update command is an OperationPlan member. -/
theorem isPlanOp_upd (rest : List String) : isPlanOp (.hg ("update" :: rest)) = true := rfl

/-- An identify probe is not an OperationPlan member. -/
theorem isPlanOp_identify (rest : List String) : isPlanOp (.hg ("identify" :: rest)) = false := rfl

/-- Filtering preserves the last element when that element passes the
filter. -/
theorem getLast?_filter_of_last (p : String → Bool) (xs : List String) (l : String)
    (h : xs.getLast? = some l) (hp : p l = true) :
    (xs.filter p).getLast? = some l := by
  rw [List.getLast?_eq_head?_reverse] at h ⊢
  rw [← List.filter_reverse]
  cases hxr : xs.reverse with
  | nil => rw [hxr] at h; simp at h
  | cons a t =>
    rw [hxr] at h
    simp only [List.head?_cons, Option.some.injEq] at h
    subst h
    simp [List.filter_cons, hp]

/-- C1: the branch-change decision of `_checkBranchChange`/`_compare`
returns CLOBBER (true) iff the observed branch differs from
`update_branch` and `clobberOnBranchChange` is true, and UPDATE (false)
in every other case; `update_branch` is set by `startVC` to
`branch or 'default'`, so a request with no branch uses the backend
default name `'default'` and compares equal to an explicit request for
`'default'`. -/
theorem C1_branch_change_guard (s : StepState) (b : Option String) (observed : String) :
    (hgCompare { s with update_branch := updateBranch b } observed = true ↔
      (observed ≠ updateBranch b ∧ s.clobberOnBranchChange = true))
    ∧ updateBranch none = "default"
    ∧ updateBranch none = updateBranch (some "default") := by
  refine ⟨?_, rfl, rfl⟩
  unfold hgCompare
  by_cases h : observed = updateBranch b
  · simp [h]
  · cases hc : s.clobberOnBranchChange <;> simp [h, hc]

/-- C2 counterexample: in incremental mode with the working copy absent
(probe not updatable) and the post-clone branch observed as `default`,
the plan operations issued are `[clone, update]`, not `[clone]` alone,
and a branch probe (`identify --branch`) is issued after the clone —
refuting the claim that the sequence is exactly `[clone]` with no
subsequent branch probe, update, or clobber. -/
theorem C2_counterexample :
    planOps (incremental s0 false "default") =
      [RemoteCmd.hg ["clone", "http://hg.example/repo", "."],
       RemoteCmd.hg ["update", "--clean", "--rev", "default"]] ∧
    planOps (incremental s0 false "default") ≠
      [RemoteCmd.hg ["clone", "http://hg.example/repo", "."]] ∧
    RemoteCmd.hg ["identify", "--branch"] ∈ incremental s0 false "default" :=
  ⟨by decide, by decide, by decide⟩

/-- C2 amended: in incremental mode with the working copy absent, the
clone from the clobber plan (the clobber plan minus its remove step)
replaces the pull, but the branch probe is still issued after the clone
and the guard result still selects a final clobber or update — the
trace is presence probe, clone, identify-branch, then the
guard-selected tail, never just the clone. -/
theorem C2_amended (s : StepState) (b : String) :
    incremental s false b =
      RemoteCmd.stat (s.workdir ++ "/.hg") :: ((doClobber s).drop 1 ++
        (RemoteCmd.hg ["identify", "--branch"] ::
          (if hgCompare s b then doClobber s else update s))) := rfl

/-- C3: in clean and fresh mode, a non-zero purge result falls back to
the full clobber plan (remove then clone) with no pull or update
command issued, a zero purge result continues with exactly pull then
update, and the only difference between clean and fresh is the `--all`
purge variant. -/
theorem C3_clean_fresh_purge (s : StepState) (res : Int) :
    (res ≠ 0 →
      clean s res = [RemoteCmd.hg (purgeCommand false), RemoteCmd.rmdir s.workdir,
        RemoteCmd.hg ["clone", s.repourl, "."]] ∧
      fresh s res = [RemoteCmd.hg (purgeCommand true), RemoteCmd.rmdir s.workdir,
        RemoteCmd.hg ["clone", s.repourl, "."]] ∧
      (∀ c ∈ clean s res, ∀ args, c = RemoteCmd.hg args →
        args.head? ≠ some "pull" ∧ args.head? ≠ some "update")) ∧
    (res = 0 →
      clean s res = [RemoteCmd.hg (purgeCommand false), RemoteCmd.hg ["pull", s.repourl],
        RemoteCmd.hg (updateCommand s)] ∧
      fresh s res = [RemoteCmd.hg (purgeCommand true), RemoteCmd.hg ["pull", s.repourl],
        RemoteCmd.hg (updateCommand s)]) ∧
    purgeCommand true = purgeCommand false ++ ["--all"] ∧
    (fresh s res).tail = (clean s res).tail := by
  refine ⟨?_, ?_, rfl, rfl⟩
  · intro h
    refine ⟨by simp [clean, checkPurge, doClobber, h],
      by simp [fresh, checkPurge, doClobber, h], ?_⟩
    intro c hc args hargs
    simp only [clean, checkPurge, doClobber, if_pos h] at hc
    simp only [List.mem_cons, List.not_mem_nil, or_false] at hc
    rcases hc with h1 | h1 | h1
    · subst h1
      injection hargs with h2
      subst h2
      exact ⟨by decide, by decide⟩
    · subst h1
      exact RemoteCmd.noConfusion hargs
    · subst h1
      injection hargs with h2
      subst h2
      exact ⟨by simp, by simp⟩
  · intro h
    constructor <;> simp [clean, fresh, checkPurge, update, h]

/-- C3 witness: at the sample state, a purge result of 1 yields the
clobber fallback and a purge result of 0 yields purge, pull, update. -/
theorem C3_witness :
    clean s0 1 = [RemoteCmd.hg (purgeCommand false), RemoteCmd.rmdir "build",
      RemoteCmd.hg ["clone", "http://hg.example/repo", "."]] ∧
    clean s0 0 = [RemoteCmd.hg (purgeCommand false),
      RemoteCmd.hg ["pull", "http://hg.example/repo"], RemoteCmd.hg (updateCommand s0)] :=
  ⟨((C3_clean_fresh_purge s0 1).1 (by decide)).1, ((C3_clean_fresh_purge s0 0).2.1 rfl).1⟩

/-- C4 counterexample: a 40-character string that is not hexadecimal is
accepted by `parseGotRevision` and published as `got_revision` instead
of producing FAILURE — refuting the claim that acceptance requires 40
hexadecimal characters and that a wrong-charset string is rejected. -/
theorem C4_counterexample :
    parseGotRevision [zrev] 0 = some (0, some zrev) ∧
    parseGotRevision [zrev] 0 ≠ some (FAILURE, none) ∧
    isHex40 zrev = false :=
  ⟨by decide, by decide, by decide⟩

/-- C4 amended: `parseGotRevision` accepts and publishes `got_revision`
iff the stripped last log line is exactly 40 characters long — the
charset is never checked; any other length yields FAILURE with no
property written. -/
theorem C4_amended (lines : List String) (l : String) (res : Int)
    (h : lines.getLast? = some l) :
    ((strip l).length = 40 → parseGotRevision lines res = some (res, some (strip l))) ∧
    ((strip l).length ≠ 40 → parseGotRevision lines res = some (FAILURE, none)) := by
  unfold parseGotRevision lastLineStripped
  rw [h]
  simp only [Option.map_some']
  constructor <;> intro hl <;> simp [hl]

/-- C4 witness: a 40-character log line is published and the incoming
result passed through; a 2-character line yields FAILURE with no
property. -/
theorem C4_witness :
    parseGotRevision [arev] 5 = some (5, some arev) ∧
    parseGotRevision ["ab"] 5 = some (FAILURE, none) :=
  ⟨(C4_amended [arev] arev 5 rfl).1 (by decide),
   (C4_amended ["ab"] "ab" 5 rfl).2 (by decide)⟩

/-- C5: in incremental mode with the working copy present, when the
branch observed by the probe issued after the pull differs from the
requested branch and `clobberOnBranchChange` is true, the full trace is
presence probe, pull, identify-branch, then the clobber fallback
(remove then clone) — so the plan operations are exactly
`[pull, remove, clone]` and not `[pull, update]`; the probe whose
result decides sits after the pull in the trace. -/
theorem C5_incremental_clobber_fallback (s : StepState) (observed : String)
    (hb : observed ≠ s.update_branch) (hc : s.clobberOnBranchChange = true) :
    incremental s true observed =
      [RemoteCmd.stat (s.workdir ++ "/.hg"), RemoteCmd.hg ["pull", s.repourl],
       RemoteCmd.hg ["identify", "--branch"]] ++ doClobber s ∧
    planOps (incremental s true observed) =
      [RemoteCmd.hg ["pull", s.repourl], RemoteCmd.rmdir s.workdir,
       RemoteCmd.hg ["clone", s.repourl, "."]] ∧
    planOps (incremental s true observed) ≠
      [RemoteCmd.hg ["pull", s.repourl], RemoteCmd.hg (updateCommand s)] := by
  have hcmp : hgCompare s observed = true := by simp [hgCompare, hb, hc]
  have h2 : planOps (incremental s true observed) =
      [RemoteCmd.hg ["pull", s.repourl], RemoteCmd.rmdir s.workdir,
       RemoteCmd.hg ["clone", s.repourl, "."]] := by
    simp [planOps, incremental, hcmp, doClobber, List.filter_cons,
      isPlanOp_stat, isPlanOp_pull, isPlanOp_identify, isPlanOp_rmdir, isPlanOp_clone]
  refine ⟨by simp [incremental, hcmp, doClobber], h2, ?_⟩
  rw [h2]
  simp

/-- C5 witness: at the sample state (requested branch `default`,
clobber-on-branch-change set), observing `feature-x` after the pull
produces the pull-then-clobber trace. -/
theorem C5_witness :
    incremental s0 true "feature-x" =
      [RemoteCmd.stat (s0.workdir ++ "/.hg"), RemoteCmd.hg ["pull", s0.repourl],
       RemoteCmd.hg ["identify", "--branch"]] ++ doClobber s0 :=
  (C5_incremental_clobber_fallback s0 "feature-x" (by decide) rfl).1

/-- C6 counterexample: constructing with neither `repourl` nor
`baseurl` set is accepted by the constructor check — refuting the claim
that the neither-set configuration is rejected at request-construction
time. -/
theorem C6_counterexample : initCheck none none = Except.ok () := rfl

/-- C6 amended: the constructor raises ValueError iff both `repourl`
and `baseurl` are set (truthy); the neither-set configuration is not
rejected at construction time. -/
theorem C6_amended (r b : Option String) :
    (initCheck r b = Except.error "you must provide exactly one of repourl and baseurl"
      ↔ (pyTruthy r = true ∧ pyTruthy b = true)) ∧
    initCheck none none = Except.ok () := by
  refine ⟨?_, rfl⟩
  unfold initCheck
  cases hr : pyTruthy r <;> cases hb : pyTruthy b <;> simp

/-- C7: every update command carries `--clean`, and its `--rev` target
is the explicit requested revision when one is given, otherwise the
requested branch, otherwise the backend default branch `default`. -/
theorem C7_update_targets (s : StepState) :
    (updateCommand s).take 2 = ["update", "--clean"] ∧
    (∀ r, s.revision = some r → r ≠ "" →
      updateCommand s = ["update", "--clean", "--rev", r]) ∧
    (pyTruthy s.revision = false → ∀ b, s.branch = some b → b ≠ "" →
      updateCommand s = ["update", "--clean", "--rev", b]) ∧
    (pyTruthy s.revision = false → pyTruthy s.branch = false →
      updateCommand s = ["update", "--clean", "--rev", "default"]) := by
  refine ⟨?_, ?_, ?_, ?_⟩
  · unfold updateCommand
    cases pyTruthy s.revision <;> simp
  · intro r hr hne
    have he : r.isEmpty = false := by
      rw [Bool.eq_false_iff]
      simp [String.isEmpty_iff, hne]
    simp [updateCommand, pyTruthy, hr, he]
  · intro hf b hb hbne
    have he : b.isEmpty = false := by
      rw [Bool.eq_false_iff]
      simp [String.isEmpty_iff, hbne]
    simp [updateCommand, hf, pyOr, hb, he]
  · intro hf hbf
    cases hb : s.branch with
    | none => simp [updateCommand, hf, pyOr, hb]
    | some t =>
      have he : t.isEmpty = true := by
        have := hbf
        rw [hb] at this
        simpa [pyTruthy] using this
      simp [updateCommand, hf, pyOr, hb, he]

/-- C7 witness: with an explicit revision the update targets it; with
only a branch it targets the branch; with neither it targets
`default`. -/
theorem C7_witness :
    updateCommand { s0 with revision := some "abc" } = ["update", "--clean", "--rev", "abc"] ∧
    updateCommand { s0 with branch := some "feat" } = ["update", "--clean", "--rev", "feat"] ∧
    updateCommand s0 = ["update", "--clean", "--rev", "default"] :=
  ⟨(C7_update_targets { s0 with revision := some "abc" }).2.1 "abc" rfl (by decide),
   (C7_update_targets { s0 with branch := some "feat" }).2.2.1 rfl "feat" rfl (by decide),
   (C7_update_targets s0).2.2.2 rfl rfl⟩

/-- C8 counterexample: on a log whose final line is blank, the
extraction used by `_getCurrentBranch` yields the empty string while
the last non-empty line is `default` — refuting the claim that the
extracted semantic result is the last non-empty line of the output. -/
theorem C8_counterexample :
    getCurrentBranch ["default", ""] = some "" ∧
    lastNonEmptyLine ["default", ""] = some "default" ∧
    getCurrentBranch ["default", ""] ≠ lastNonEmptyLine ["default", ""] :=
  ⟨by decide, by decide, by decide⟩

/-- C8 amended: both identify-style extractions use the stripped LAST
line of the captured output; this agrees with the last non-empty line
whenever the final line is non-blank, but a trailing blank line makes
the extracted value the empty string — which `parseGotRevision` then
rejects as FAILURE and `_getCurrentBranch` reports as the branch
name. -/
theorem C8_amended (lines : List String) (l : String) (res : Int)
    (h : lines.getLast? = some l) :
    getCurrentBranch lines = some (strip l) ∧
    ((strip l).isEmpty = false → lastNonEmptyLine lines = some (strip l)) ∧
    (strip l = "" → parseGotRevision lines res = some (FAILURE, none)) := by
  refine ⟨?_, ?_, ?_⟩
  · unfold getCurrentBranch lastLineStripped
    rw [h]
    rfl
  · intro hne
    unfold lastNonEmptyLine
    rw [getLast?_filter_of_last _ lines l h (by simp [hne])]
    rfl
  · intro hz
    unfold parseGotRevision lastLineStripped
    rw [h]
    simp [hz]

/-- C8 witness: when the final line is non-blank, the extracted value
and the last non-empty line coincide. -/
theorem C8_witness :
    getCurrentBranch ["default"] = some "default" ∧
    lastNonEmptyLine ["default"] = some "default" :=
  ⟨(C8_amended ["default"] "default" 0 rfl).1,
   (C8_amended ["default"] "default" 0 rfl).2.1 (by decide)⟩

/-- C9: `startVC` accepts an explicit per-build branch only when
`branchType` is `dirname` and no direct `repourl` is configured, in
which case the branch is appended to the resolved base URL; an explicit
branch under `inrepo` addressing, or no branch under `dirname`
addressing, fails the assertion before any remote command. -/
theorem C9_startVC_branch (crl : Option String → String) (cfg : HgConfig) :
    (∀ b r, b ≠ "" → startVCRepourl crl cfg (some b) = Except.ok r →
       cfg.branchType = "dirname" ∧ pyTruthy cfg.repourl = false ∧
       r = crl cfg.baseurl ++ b) ∧
    (cfg.branchType = "inrepo" → ∀ b, b ≠ "" →
       startVCRepourl crl cfg (some b) = Except.error "AssertionError") ∧
    (cfg.branchType = "dirname" →
       startVCRepourl crl cfg none = Except.error "AssertionError") := by
  refine ⟨?_, ?_, ?_⟩
  · intro b r hb hok
    have he : b.isEmpty = false := by
      rw [Bool.eq_false_iff]
      simp [String.isEmpty_iff, hb]
    have hpt : pyTruthy (some b) = true := by simp [pyTruthy, he]
    unfold startVCRepourl at hok
    rw [if_pos hpt] at hok
    by_cases hcond : cfg.branchType = "dirname" ∧ pyTruthy cfg.repourl = false
    · rw [if_pos hcond] at hok
      injection hok with h2
      refine ⟨hcond.1, hcond.2, ?_⟩
      rw [← h2]
      simp [pyOr, he]
    · rw [if_neg hcond] at hok
      exact Except.noConfusion hok
  · intro hbt b hb
    have he : b.isEmpty = false := by
      rw [Bool.eq_false_iff]
      simp [String.isEmpty_iff, hb]
    have hpt : pyTruthy (some b) = true := by simp [pyTruthy, he]
    have hcond : ¬(cfg.branchType = "dirname" ∧ pyTruthy cfg.repourl = false) := by
      intro hcond
      rw [hbt] at hcond
      exact absurd hcond.1 (by decide)
    unfold startVCRepourl
    rw [if_pos hpt, if_neg hcond]
  · intro hbt
    have hpt : ¬(pyTruthy (none : Option String) = true) := by simp [pyTruthy]
    have hcond : ¬(cfg.branchType = "inrepo" ∧ pyTruthy cfg.baseurl = false) := by
      intro hcond
      rw [hbt] at hcond
      exact absurd hcond.1 (by decide)
    unfold startVCRepourl
    rw [if_neg hpt, if_neg hcond]

/-- C9 witness: an explicit branch under `inrepo` addressing fails the
assertion; no branch under `dirname` addressing fails the assertion;
and an accepted dirname-branch request resolves to the base URL with
the branch appended. -/
theorem C9_witness :
    startVCRepourl (fun o => Option.getD o "")
      { repourl := some "http://repo", baseurl := none, branchType := "inrepo" }
      (some "feat") = Except.error "AssertionError" ∧
    startVCRepourl (fun o => Option.getD o "")
      { repourl := none, baseurl := some "http://base/", branchType := "dirname" }
      none = Except.error "AssertionError" ∧
    (HgConfig.branchType
        { repourl := none, baseurl := some "http://base/", branchType := "dirname" } = "dirname" ∧
      pyTruthy (HgConfig.repourl
        { repourl := none, baseurl := some "http://base/", branchType := "dirname" }) = false ∧
      "http://base/feat" = (fun o => Option.getD o "")
        (HgConfig.baseurl
          { repourl := none, baseurl := some "http://base/", branchType := "dirname" }) ++ "feat") :=
  ⟨(C9_startVC_branch _ _).2.1 rfl "feat" (by decide),
   (C9_startVC_branch _ _).2.2 rfl,
   (C9_startVC_branch (fun o => Option.getD o "")
      { repourl := none, baseurl := some "http://base/", branchType := "dirname" }).1
      "feat" "http://base/feat" (by decide) rfl⟩

/-- C10: for every construction of a SubcommandOptions instance, the
class attribute `optParameters` after the constructor returns equals
its value before the call — the option-file defaults are merged into a
deep copy installed only for the duration of the superclass
constructor and the saved original is assigned back afterwards. -/
theorem C10_optParameters_restored (bb : Option (List (String × String)))
    (optfile : List (String × String)) (cls : Option (List OptParam)) :
    (subcommandOptionsInit bb optfile cls).after = cls := by
  cases cls <;> rfl

end Buildbot
